import Mathlib

/-!
Shallow embedding of `tick_taker.py` (umitanuki/hft2).

Decimal prices (Python floats holding two-decimal quote prices) are modelled
as exact rationals; Python's `round(x, n)` (round-half-to-even on the scaled
value) is modelled by `pyRound`.  Python `dict` fields are modelled as
`Nat → Option Int` maps (a `KeyError` on a missing key becomes `Except.error
PyError.keyError`); dereferencing `None` becomes `PyError.attributeError`.
Logging calls and the `_symbol` tag carried by `Quote`/`Position` have no
effect on the tracked state and are omitted.
-/

/-- Python exceptions that the embedded code can raise. -/
inductive PyError where
  | keyError
  | attributeError
deriving DecidableEq

/-- Floor of a rational as an integer (`Int.fdiv` is floor division and
`x.den > 0`). -/
def ratFloor (x : ℚ) : Int :=
  Int.fdiv x.num (x.den : Int)

/-- Round a rational to the nearest integer, ties to even — the rounding
Python's builtin `round` uses. -/
def roundHalfEven (x : ℚ) : Int :=
  let n := ratFloor x
  let frac := x - (n : ℚ)
  if frac < 1/2 then n
  else if 1/2 < frac then n + 1
  else if n % 2 = 0 then n else n + 1

/-- Python's `round(x, ndigits)` for a non-negative `ndigits`. -/
def pyRound (x : ℚ) (ndigits : Nat) : ℚ :=
  (roundHalfEven (x * 10 ^ ndigits) : ℚ) / 10 ^ ndigits

/-- One inbound quote tick, as consumed by `Quote.update`
(`data.bidprice`, `data.askprice`, `data.bidsize`, `data.asksize`,
`data.timestamp`; timestamps are integer nanoseconds). -/
structure QuoteData where
  bidprice : ℚ
  askprice : ℚ
  bidsize : Int
  asksize : Int
  timestamp : Int
deriving DecidableEq

/-- The per-symbol quote state of class `Quote` in `tick_taker.py`
(the `_symbol` tag is omitted; it only feeds log lines). -/
@[ext]
structure Quote where
  prev_bid : ℚ
  prev_ask : ℚ
  prev_spread : ℚ
  bid : ℚ
  ask : ℚ
  bid_size : Int
  ask_size : Int
  spread : ℚ
  traded : Bool
  level_ct : Nat
  time : Int
deriving DecidableEq

/-- `Quote.__init__`: zeros everywhere, `traded = True`, `level_ct = 1`. -/
def Quote.init : Quote :=
  { prev_bid := 0, prev_ask := 0, prev_spread := 0, bid := 0, ask := 0,
    bid_size := 0, ask_size := 0, spread := 0, traded := true,
    level_ct := 1, time := 0 }

/-- `Quote.reset`: called on an eligible level change; clears the traded
lock and counts the level. -/
def Quote.reset (q : Quote) : Quote :=
  { q with traded := false, level_ct := q.level_ct + 1 }

/-- `Quote.update(data)`: overwrite the sizes, and when the stored bid and
ask both differ from the incoming ones and the incoming spread rounds (to
2 digits) to exactly one cent, adopt the new level — snapshotting the old
bid/ask as `prev_bid`/`prev_ask`, recomputing `prev_spread` from the old
pair and `spread` from the new pair (3 digits) — and, when the previous
spread was exactly one cent, call `reset`.  Otherwise only the sizes (and
nothing else) change.  The source mutates the size fields first and then
tests the stored bid/ask, which the test does not read, so the flattening
below is behaviour-identical. -/
def Quote.update (q : Quote) (d : QuoteData) : Quote :=
  if q.bid ≠ d.bidprice ∧ q.ask ≠ d.askprice ∧
      pyRound (d.askprice - d.bidprice) 2 = 1/100 then
    let q2 : Quote :=
      { prev_bid := q.bid, prev_ask := q.ask,
        prev_spread := pyRound (q.ask - q.bid) 3,
        bid := d.bidprice, ask := d.askprice,
        bid_size := d.bidsize, ask_size := d.asksize,
        spread := pyRound (d.askprice - d.bidprice) 3,
        traded := q.traded, level_ct := q.level_ct, time := d.timestamp }
    if q2.prev_spread = 1/100 then q2.reset else q2
  else
    { q with bid_size := d.bidsize, ask_size := d.asksize }

/-- Order side; `tick_taker.py` tests `side == 'buy'` and treats every other
side string as sell, so a two-constructor type is faithful. -/
inductive Side where
  | buy
  | sell
deriving DecidableEq

/-- The opposite side. -/
def Side.other : Side → Side
  | .buy => .sell
  | .sell => .buy

/-- The per-symbol ledger of class `Position` in `tick_taker.py`
(`orders_filled_amount` is the dict mapping an order id to the cumulative
filled quantity last seen for it; the `_symbol` tag is omitted). -/
structure Position where
  orders_filled_amount : Nat → Option Int
  pending_buy_shares : Int
  pending_sell_shares : Int
  total_shares : Int

/-- `Position.__init__`: empty dict, all counters zero. -/
def Position.init : Position :=
  { orders_filled_amount := fun _ => none,
    pending_buy_shares := 0, pending_sell_shares := 0, total_shares := 0 }

/-- `Position.update_pending_buy_shares(quantity)`. -/
def Position.update_pending_buy_shares (p : Position) (quantity : Int) : Position :=
  { p with pending_buy_shares := p.pending_buy_shares + quantity }

/-- `Position.update_pending_sell_shares(quantity)`. -/
def Position.update_pending_sell_shares (p : Position) (quantity : Int) : Position :=
  { p with pending_sell_shares := p.pending_sell_shares + quantity }

/-- `Position.update_total_shares(quantity)`. -/
def Position.update_total_shares (p : Position) (quantity : Int) : Position :=
  { p with total_shares := p.total_shares + quantity }

/-- `Position.update_filled_amount(order_id, new_amount, side)`: reads the
recorded cumulative amount (KeyError when absent); on a strictly larger new
amount, moves the delta from the pending side to `total_shares` (buy: total
up, sell: total down) and records the new cumulative amount; otherwise a
no-op. -/
def Position.update_filled_amount (p : Position) (order_id : Nat)
    (new_amount : Int) (side : Side) : Except PyError Position :=
  match p.orders_filled_amount order_id with
  | none => .error .keyError
  | some old_amount =>
    if old_amount < new_amount then
      let p1 :=
        if side = Side.buy then
          (p.update_pending_buy_shares (old_amount - new_amount)).update_total_shares
            (new_amount - old_amount)
        else
          (p.update_pending_sell_shares (old_amount - new_amount)).update_total_shares
            (old_amount - new_amount)
      .ok { p1 with orders_filled_amount :=
              fun k => if k = order_id then some new_amount
                       else p1.orders_filled_amount k }
    else .ok p

/-- `Position.remove_pending_order(order_id, side, unit)`: reads the recorded
cumulative amount (KeyError when absent), adds `old_amount - unit` to the
pending counter of `side`, and deletes the dict entry. -/
def Position.remove_pending_order (p : Position) (order_id : Nat)
    (side : Side) (unit : Int) : Except PyError Position :=
  match p.orders_filled_amount order_id with
  | none => .error .keyError
  | some old_amount =>
    let p1 :=
      if side = Side.buy then p.update_pending_buy_shares (old_amount - unit)
      else p.update_pending_sell_shares (old_amount - unit)
    .ok { p1 with orders_filled_amount :=
            fun k => if k = order_id then none
                     else p1.orders_filled_amount k }

/-- The optimistic registration performed inline in `on_trade` right after
the submit/cancel pair (lines 231-232 and 255-256): bump the pending counter
of the order's side by `unit` and record a zero filled amount for the order. -/
def Position.register_pending_order (p : Position) (order_id : Nat)
    (side : Side) (unit : Int) : Position :=
  let p1 :=
    if side = Side.buy then p.update_pending_buy_shares unit
    else p.update_pending_sell_shares unit
  { p1 with orders_filled_amount :=
      fun k => if k = order_id then some 0
               else p1.orders_filled_amount k }

/-- The pending counter of a given side. -/
def pendingOf : Side → Position → Int
  | .buy, p => p.pending_buy_shares
  | .sell, p => p.pending_sell_shares

/-- Wall-clock instant as `on_trade` reads it from
`pd.Timestamp.now`: day of week (Monday = 0) and minutes since midnight. -/
structure Clock where
  dayofweek : Nat
  minutes : Nat
deriving DecidableEq

/-- One trade print, as consumed by `on_trade` (`data.price`, `data.size`,
`data.timestamp` in integer nanoseconds). -/
structure TradeData where
  price : ℚ
  size : Int
  timestamp : Int
deriving DecidableEq

/-- What `on_trade` decides to do after its gates. -/
inductive TradeAction where
  | hold
  | buy
  | sell
deriving DecidableEq

/-- Five milliseconds in nanoseconds: `pd.Timedelta(np.timedelta64(5, 'ms'))`. -/
def fiveMsNs : Int := 5000000

/-- Minutes since midnight for 09:40, the session start in `on_trade`. -/
def sessionStartMin : Nat := 9 * 60 + 40

/-- Minutes since midnight for 12:40, the session end in `on_trade`. -/
def sessionEndMin : Nat := 12 * 60 + 40

/-- The gate-and-decide portion of `on_trade` (lines 186-221 and 239-244):
window gate (weekday 0..5 and 09:40-12:40 wall clock), already-traded gate,
latency gate (the print must be more than 5 ms after the level change),
size gate (`data.size >= 100`), then the buy branch (price equals ask,
bid size exceeds 1.8 times ask size, `total + pending_buy < max_shares -
unit`) or else the sell branch (price equals bid, ask size exceeds 1.8
times bid size, `total - pending_sell >= unit`). -/
def on_trade_decision (t : Clock) (q : Quote) (p : Position) (d : TradeData)
    (unit max_shares : Int) : TradeAction :=
  if ¬(0 ≤ t.dayofweek ∧ t.dayofweek ≤ 5 ∧
        sessionStartMin ≤ t.minutes ∧ t.minutes ≤ sessionEndMin) then .hold
  else if q.traded then .hold
  else if d.timestamp ≤ q.time + fiveMsNs then .hold
  else if 100 ≤ d.size then
    if d.price = q.ask ∧ (q.ask_size : ℚ) * 1.8 < (q.bid_size : ℚ) ∧
        p.total_shares + p.pending_buy_shares < max_shares - unit then .buy
    else if d.price = q.bid ∧ (q.bid_size : ℚ) * 1.8 < (q.ask_size : ℚ) ∧
        unit ≤ p.total_shares - p.pending_sell_shares then .sell
    else .hold
  else .hold

/-- The body of the buy branch's `try` block (lines 223-238), with the two
outbound calls replaced by raise flags: when `submit_raises` the
`submit_order` call raises, when `cancel_raises` the `cancel_order` call
raises; in either case the `except` clause only logs, so every statement
after the raising call — the pending increment, the zero-fill registration
under the new order id `oid`, and the `traded = True` flip — is skipped. -/
def buy_path (submit_raises cancel_raises : Bool) (oid : Nat)
    (q : Quote) (p : Position) (unit : Int) : Quote × Position :=
  if submit_raises then (q, p)
  else if cancel_raises then (q, p)
  else
    let p1 := p.update_pending_buy_shares unit
    let p2 : Position :=
      { p1 with orders_filled_amount :=
          fun k => if k = oid then some 0 else p1.orders_filled_amount k }
    ({ q with traded := true }, p2)

/-- The body of the sell branch's `try` block (lines 247-262), modelled
exactly like `buy_path`. -/
def sell_path (submit_raises cancel_raises : Bool) (oid : Nat)
    (q : Quote) (p : Position) (unit : Int) : Quote × Position :=
  if submit_raises then (q, p)
  else if cancel_raises then (q, p)
  else
    let p1 := p.update_pending_sell_shares unit
    let p2 : Position :=
      { p1 with orders_filled_amount :=
          fun k => if k = oid then some 0 else p1.orders_filled_amount k }
    ({ q with traded := true }, p2)

/-- Statements of the buy/sell `try` blocks in source order; used to state
where the ledger registration sits relative to the cancel call. -/
inductive OrderStep where
  | submit_order
  | cancel_order
  | update_pending
  | register_order
  | log_trade
  | set_traded
deriving DecidableEq, BEq

/-- Source order of the buy branch (lines 224-236): submit, cancel, pending
increment, dict registration, log, traded flip. -/
def buy_path_steps : List OrderStep :=
  [.submit_order, .cancel_order, .update_pending, .register_order,
   .log_trade, .set_traded]

/-- Source order of the sell branch (lines 248-260): identical shape. -/
def sell_path_steps : List OrderStep :=
  [.submit_order, .cancel_order, .update_pending, .register_order,
   .log_trade, .set_traded]

/-- Event kinds of the order-update stream.  The source branches on the
strings `fill`, `partial_fill`, `canceled`, `rejected` and implicitly
ignores everything else; `new` and `done_for_day` are the representative
other kinds (`part_fill` stands for the string `partial_fill`). -/
inductive Event where
  | fill
  | part_fill
  | canceled
  | rejected
  | new
  | done_for_day
deriving DecidableEq

/-- The body of `on_trade_updates` (lines 264-297) for one event, with the
`positions.get(symbol)` lookup abstracted to its result `position?`.  When
the symbol has no ledger the source logs `position not found` but does NOT
return, so the four handled kinds then dereference `None` — modelled as
`attributeError`.  `fill`: read the recorded cumulative amount (KeyError if
untracked), move the remaining delta into `total_shares` by side, then
`remove_pending_order` with the configured `unit`.  `partial_fill`:
`update_filled_amount`.  `canceled`/`rejected`: `remove_pending_order`.
Any other kind falls through with no state change. -/
def on_trade_updates (position? : Option Position) (event : Event)
    (oid : Nat) (side : Side) (filled_qty : Int) (unit : Int) :
    Except PyError (Option Position) :=
  match event with
  | .fill =>
    match position? with
    | none => .error .attributeError
    | some position =>
      match position.orders_filled_amount oid with
      | none => .error .keyError
      | some old_amount =>
        let position :=
          if side = Side.buy then
            position.update_total_shares (filled_qty - old_amount)
          else
            position.update_total_shares (old_amount - filled_qty)
        (position.remove_pending_order oid side unit).map some
  | .part_fill =>
    match position? with
    | none => .error .attributeError
    | some position =>
      (position.update_filled_amount oid filled_qty side).map some
  | .canceled =>
    match position? with
    | none => .error .attributeError
    | some position =>
      (position.remove_pending_order oid side unit).map some
  | .rejected =>
    match position? with
    | none => .error .attributeError
    | some position =>
      (position.remove_pending_order oid side unit).map some
  | _ => .ok position?

/-- One envelope of the order-update stream (event kind, order id, side,
cumulative filled quantity). -/
structure OrderUpdateEv where
  event : Event
  id : Nat
  side : Side
  filled_qty : Int

/-- Deliver a list of order-update envelopes to `on_trade_updates` in
order, stopping at the first raised exception. -/
def process_trade_updates (position? : Option Position)
    (us : List OrderUpdateEv) (unit : Int) : Except PyError (Option Position) :=
  match us with
  | [] => .ok position?
  | u :: rest =>
    match on_trade_updates position? u.event u.id u.side u.filled_qty unit with
    | .error e => .error e
    | .ok p2 => process_trade_updates p2 rest unit

/-! ### Concrete fixtures used by the claim theorems -/

/-- Tuesday 10:00, inside the trading window. -/
def cC1 : Clock := { dayofweek := 1, minutes := 600 }

/-- A penny-wide quote eligible for the buy path: bid 10.01 / ask 10.02,
bid size 200 against ask size 100, untraded, level change at time 0. -/
def qC1 : Quote :=
  { prev_bid := 10, prev_ask := 10.02, prev_spread := 1/50, bid := 10.01,
    ask := 10.02, bid_size := 200, ask_size := 100, spread := 1/100,
    traded := false, level_ct := 2, time := 0 }

/-- A ledger with `totalShares + pendingBuyShares = 400`. -/
def pC1 : Position :=
  { orders_filled_amount := fun _ => none, pending_buy_shares := 0,
    pending_sell_shares := 0, total_shares := 400 }

/-- A ledger with `totalShares + pendingBuyShares = 399`. -/
def pC1w : Position :=
  { orders_filled_amount := fun _ => none, pending_buy_shares := 0,
    pending_sell_shares := 0, total_shares := 399 }

/-- A 100-share print at the ask, 6 ms after the level change. -/
def dC1 : TradeData := { price := 10.02, size := 100, timestamp := 6000000 }

/-- An untraded quote, for the failed-submission scenarios. -/
def qC2 : Quote := { Quote.init with traded := false }

/-- A ledger tracking order 1 with 40 shares of recorded cumulative fill and
60 pending buy shares. -/
def pC5 : Position :=
  { orders_filled_amount := fun k => if k = 1 then some 40 else none,
    pending_buy_shares := 60, pending_sell_shares := 0, total_shares := 0 }

/-- Stored quote bid 10.00 / ask 10.02. -/
def qC8a : Quote := { Quote.init with bid := 10, ask := 10.02, spread := 1/50 }

/-- Tick moving only the bid: bid 10.01, ask still 10.02. -/
def dC8a : QuoteData :=
  { bidprice := 10.01, askprice := 10.02, bidsize := 5, asksize := 6,
    timestamp := 7 }

/-- Stored quote bid 10.00 / ask 10.01 (a penny-wide level). -/
def qC8b : Quote := { Quote.init with bid := 10, ask := 10.01, spread := 1/100 }

/-- Tick moving both sides one cent up: bid 10.01, ask 10.02. -/
def dC8b : QuoteData :=
  { bidprice := 10.01, askprice := 10.02, bidsize := 5, asksize := 6,
    timestamp := 7 }

/-- Stored quote with a two-cent spread: bid 10.00 / ask 10.02, traded. -/
def qC9 : Quote := { Quote.init with bid := 10, ask := 10.02, spread := 1/50 }

/-- Tick creating a penny-wide level change from the two-cent state. -/
def dC9 : QuoteData :=
  { bidprice := 10.03, askprice := 10.04, bidsize := 5, asksize := 6,
    timestamp := 7 }

/-! ### Helper lemmas -/

/-- Floor of an integer cast into the rationals is that integer. -/
lemma ratFloor_intCast (z : ℤ) : ratFloor (z : ℚ) = z := by
  simp [ratFloor, Rat.num_intCast, Rat.den_intCast, Int.fdiv_one]

/-- Half-even rounding of an integer cast is that integer. -/
lemma roundHalfEven_intCast (z : ℤ) : roundHalfEven (z : ℚ) = z := by
  simp [roundHalfEven, ratFloor_intCast]

/-- Evaluate `pyRound` when the scaled value is an exact integer. -/
lemma pyRound_of_mul_eq (x : ℚ) (n : ℕ) (z : ℤ) (h : x * 10 ^ n = (z : ℚ)) :
    pyRound x n = (z : ℚ) / 10 ^ n := by
  rw [pyRound, h, roundHalfEven_intCast]

/-- Behaviour of `remove_pending_order` on a tracked order: the entry is
deleted and the pending counter of the given side drops by `unit` minus the
recorded cumulative fill, while the other side and `total_shares` are
untouched. -/
lemma remove_pending_order_spec (p : Position) (oid : Nat) (side : Side)
    (unit a : Int) (h : p.orders_filled_amount oid = some a) :
    ∃ p2, p.remove_pending_order oid side unit = Except.ok p2
      ∧ p2.orders_filled_amount oid = none
      ∧ pendingOf side p2 = pendingOf side p - (unit - a)
      ∧ pendingOf side.other p2 = pendingOf side.other p
      ∧ p2.total_shares = p.total_shares := by
  cases side
  case buy =>
    refine ⟨{ orders_filled_amount :=
                fun k => if k = oid then none else p.orders_filled_amount k,
              pending_buy_shares := p.pending_buy_shares + (a - unit),
              pending_sell_shares := p.pending_sell_shares,
              total_shares := p.total_shares }, ?_, ?_, ?_, ?_, ?_⟩
    · simp [Position.remove_pending_order, h, Position.update_pending_buy_shares]
    · simp
    · simp [pendingOf]; ring
    · simp [pendingOf, Side.other]
    · rfl
  case sell =>
    refine ⟨{ orders_filled_amount :=
                fun k => if k = oid then none else p.orders_filled_amount k,
              pending_buy_shares := p.pending_buy_shares,
              pending_sell_shares := p.pending_sell_shares + (a - unit),
              total_shares := p.total_shares }, ?_, ?_, ?_, ?_, ?_⟩
    · simp [Position.remove_pending_order, h, Position.update_pending_sell_shares]
    · simp
    · simp [pendingOf]; ring
    · simp [pendingOf, Side.other]
    · rfl

/-! ### Claim theorems -/

/-- C10: an order-update event whose kind is none of fill, partial_fill,
canceled, rejected leaves the ledger — every field of the `Position` state —
entirely unchanged (the handler falls through without touching it). -/
theorem c10_other_events_leave_position_unchanged
    (position? : Option Position) (ev : Event) (oid : Nat) (side : Side)
    (filled_qty unit : Int)
    (h1 : ev ≠ Event.fill) (h2 : ev ≠ Event.part_fill)
    (h3 : ev ≠ Event.canceled) (h4 : ev ≠ Event.rejected) :
    on_trade_updates position? ev oid side filled_qty unit = Except.ok position? := by
  cases ev
  · exact absurd rfl h1
  · exact absurd rfl h2
  · exact absurd rfl h3
  · exact absurd rfl h4
  · rfl
  · rfl

/-- Witness for C10 at the event kinds `new` and `done_for_day` named by the
claim, on a concrete ledger. -/
theorem c10_other_events_leave_position_unchanged_witness :
    on_trade_updates (some Position.init) Event.new 1 Side.buy 0 100
        = Except.ok (some Position.init)
      ∧ on_trade_updates (some Position.init) Event.done_for_day 1 Side.buy 0 100
        = Except.ok (some Position.init) :=
  ⟨c10_other_events_leave_position_unchanged (some Position.init) Event.new 1
      Side.buy 0 100 (by decide) (by decide) (by decide) (by decide),
    c10_other_events_leave_position_unchanged (some Position.init) Event.done_for_day 1
      Side.buy 0 100 (by decide) (by decide) (by decide) (by decide)⟩

/-- C4: the claim says an order-update for a symbol with no Position ledger
is logged and skipped without raising.  The source logs but lacks a return:
for each of the four handled event kinds it then dereferences `None` and
raises `AttributeError`; only unhandled kinds are skipped. -/
theorem c4_missing_position_raises :
    on_trade_updates none Event.canceled 1 Side.buy 0 100
        = Except.error PyError.attributeError
      ∧ on_trade_updates none Event.fill 1 Side.buy 100 100
        = Except.error PyError.attributeError
      ∧ on_trade_updates none Event.part_fill 1 Side.buy 40 100
        = Except.error PyError.attributeError
      ∧ on_trade_updates none Event.rejected 1 Side.buy 0 100
        = Except.error PyError.attributeError
      ∧ on_trade_updates none Event.new 1 Side.buy 0 100 = Except.ok none :=
  ⟨rfl, rfl, rfl, rfl, rfl⟩

/-- Behaviour of `update_filled_amount` on a tracked order: the recorded
amount becomes the max of old and new, the pending counter of the side
absorbs the (possibly zero) delta, and the other side is untouched. -/
lemma update_filled_amount_spec (p : Position) (oid : Nat) (f a : Int)
    (side : Side) (h : p.orders_filled_amount oid = some a) :
    ∃ p2, p.update_filled_amount oid f side = Except.ok p2
      ∧ p2.orders_filled_amount oid = some (if a < f then f else a)
      ∧ pendingOf side p2 = pendingOf side p + (a - (if a < f then f else a))
      ∧ pendingOf side.other p2 = pendingOf side.other p := by
  by_cases hf : a < f
  · cases side with
    | buy =>
      refine ⟨{ orders_filled_amount :=
                  fun k => if k = oid then some f else p.orders_filled_amount k,
                pending_buy_shares := p.pending_buy_shares + (a - f),
                pending_sell_shares := p.pending_sell_shares,
                total_shares := p.total_shares + (f - a) }, ?_, ?_, ?_, ?_⟩
      · simp [Position.update_filled_amount, h, hf,
          Position.update_pending_buy_shares, Position.update_total_shares]
      · simp [hf]
      · simp [pendingOf, hf]
      · simp [pendingOf, Side.other]
    | sell =>
      refine ⟨{ orders_filled_amount :=
                  fun k => if k = oid then some f else p.orders_filled_amount k,
                pending_buy_shares := p.pending_buy_shares,
                pending_sell_shares := p.pending_sell_shares + (a - f),
                total_shares := p.total_shares + (a - f) }, ?_, ?_, ?_, ?_⟩
      · simp [Position.update_filled_amount, h, hf,
          Position.update_pending_sell_shares, Position.update_total_shares]
      · simp [hf]
      · simp [pendingOf, hf]
      · simp [pendingOf, Side.other]
  · exact ⟨p, by simp [Position.update_filled_amount, h, hf],
      by simp [h, hf], by simp [hf], rfl⟩

/-- Delivering a concatenation of update streams is delivery of the first
followed, on success, by delivery of the second. -/
lemma process_trade_updates_append (unit : Int) (us vs : List OrderUpdateEv) :
    ∀ position?, process_trade_updates position? (us ++ vs) unit =
      match process_trade_updates position? us unit with
      | .error e => .error e
      | .ok p2 => process_trade_updates p2 vs unit := by
  induction us with
  | nil => intro position?; rfl
  | cons u rest ih =>
    intro position?
    show process_trade_updates position? (u :: (rest ++ vs)) unit = _
    simp only [process_trade_updates]
    cases on_trade_updates position? u.event u.id u.side u.filled_qty unit with
    | error e => rfl
    | ok p2 => exact ih p2

/-- Running any stream of partial-fill events for a tracked order keeps the
order tracked at some cumulative amount `a2` and moves exactly `a2 - a` off
the pending counter of the order's side, leaving the other side unchanged. -/
lemma partial_fills_run (side : Side) (oid : Nat) (unit : Int) :
    ∀ (fills : List Int) (p : Position) (a : Int),
      p.orders_filled_amount oid = some a →
      ∃ p2 a2,
        process_trade_updates (some p)
            (fills.map (fun f => ⟨Event.part_fill, oid, side, f⟩)) unit
          = Except.ok (some p2)
        ∧ p2.orders_filled_amount oid = some a2
        ∧ pendingOf side p2 = pendingOf side p + (a - a2)
        ∧ pendingOf side.other p2 = pendingOf side.other p := by
  intro fills
  induction fills with
  | nil =>
    intro p a h
    exact ⟨p, a, rfl, h, by ring_nf, rfl⟩
  | cons f fs ih =>
    intro p a h
    obtain ⟨p1, h1, h2, h3, h4⟩ := update_filled_amount_spec p oid f a side h
    obtain ⟨p2, a2, g1, g2, g3, g4⟩ := ih p1 (if a < f then f else a) h2
    refine ⟨p2, a2, ?_, g2, ?_, ?_⟩
    · simp only [List.map_cons, process_trade_updates, on_trade_updates, h1,
        Except.map, g1]
    · rw [g3, h3]; ring
    · rw [g4, h4]

/-- C5 (amended): for every tracked order, `remove_pending_order(orderId,
side, unitQty)` deletes the order's entry and decrements the pending counter
of the given side by `unitQty` minus the recorded cumulative filled amount
(so by exactly `unitQty` only when nothing was recorded as filled), leaving
the other side's counter untouched — for terminal fill, cancel, and reject
notifications alike, which all call this one function. -/
theorem c5_remove_pending_order_decrements_by_remainder
    (p : Position) (oid : Nat) (side : Side) (unit a : Int)
    (h : p.orders_filled_amount oid = some a) :
    ∃ p2, p.remove_pending_order oid side unit = Except.ok p2
      ∧ p2.orders_filled_amount oid = none
      ∧ pendingOf side p2 = pendingOf side p - (unit - a)
      ∧ pendingOf side.other p2 = pendingOf side.other p :=
  let ⟨p2, h1, h2, h3, h4, _⟩ := remove_pending_order_spec p oid side unit a h
  ⟨p2, h1, h2, h3, h4⟩

/-- Witness for C5 (amended) on the concrete ledger `pC5` (order 1 recorded
at 40 filled, 60 pending buy shares), removing with unit 100. -/
theorem c5_remove_pending_order_decrements_by_remainder_witness :
    pC5.orders_filled_amount 1 = some 40
      ∧ ∃ p2, pC5.remove_pending_order 1 Side.buy 100 = Except.ok p2
          ∧ p2.orders_filled_amount 1 = none
          ∧ pendingOf Side.buy p2 = pendingOf Side.buy pC5 - (100 - 40)
          ∧ pendingOf Side.buy.other p2 = pendingOf Side.buy.other pC5 :=
  ⟨rfl, c5_remove_pending_order_decrements_by_remainder pC5 1 Side.buy 100 40 rfl⟩

/-- C5 counterexample: the claim as stated says the pending counter drops by
exactly `unitQty`.  On `pC5` (order 1 recorded at 40 filled, 60 pending buy
shares) removing with unit 100 leaves 0 pending buy shares, not 60 - 100 =
-40: the counter dropped by 60, not by the requested size 100. -/
theorem c5_remove_pending_order_counterexample :
    pC5.pending_buy_shares = 60
      ∧ pC5.orders_filled_amount 1 = some 40
      ∧ ∃ p2, pC5.remove_pending_order 1 Side.buy 100 = Except.ok p2
          ∧ p2.pending_buy_shares = 0
          ∧ p2.pending_buy_shares ≠ pC5.pending_buy_shares - 100 :=
  ⟨rfl, rfl, ⟨_, rfl, rfl, by decide⟩⟩

/-- C7: registering a buy order (zero filled amount recorded, pending buy
shares up by the unit 100), then a `partial_fill` at cumulative 40 followed
by a `fill` at cumulative 100, lowers `pendingBuyShares` by exactly 100 in
total — back to its pre-registration value, not down by 140 — raises
`totalShares` by exactly 100, and drops the order's entry. -/
theorem c7_partial_then_fill_nets_exactly_unit (p : Position) :
    (p.register_pending_order 1 Side.buy 100).pending_buy_shares
        = p.pending_buy_shares + 100
      ∧ ∃ p2, process_trade_updates (some (p.register_pending_order 1 Side.buy 100))
            [⟨Event.part_fill, 1, Side.buy, 40⟩, ⟨Event.fill, 1, Side.buy, 100⟩] 100
          = Except.ok (some p2)
        ∧ p2.pending_buy_shares = p.pending_buy_shares
        ∧ p2.total_shares = p.total_shares + 100
        ∧ p2.orders_filled_amount 1 = none := by
  refine ⟨rfl, _, rfl, ?_, ?_, rfl⟩
  · show p.pending_buy_shares + 100 + (0 - 40) + (40 - 100) = p.pending_buy_shares
    omega
  · show p.total_shares + (40 - 0) + (100 - 40) = p.total_shares + 100
    omega

/-- C2 counterexample: the claim as stated says that after a submission or
cancellation error the pending increment, the zero-filled registration and
the `traded = true` lock remain applied.  In the source those statements
come after the cancel call inside the `try` block, so when the cancel call
raises (flags: submit ok, cancel raises) nothing was applied: the state is
returned unchanged, `traded` is still false, no pending shares, no entry
for the new order id 7. -/
theorem c2_error_counterexample :
    buy_path false true 7 qC2 Position.init 100 = (qC2, Position.init)
      ∧ qC2.traded = false
      ∧ Position.init.pending_buy_shares = 0
      ∧ Position.init.orders_filled_amount 7 = none :=
  ⟨rfl, rfl, rfl, rfl⟩

/-- C2 (amended): if order submission or cancellation raises during the buy
or sell path, the error is caught (and logged); the optimistic state changes
— pending-share increment, zero-filled registration, `traded = true` — were
never applied, because they follow both outbound calls in the `try` block,
so the quote and ledger are exactly as before and the instrument may retry
on the same level change. -/
theorem c2_error_leaves_state_unchanged
    (submit_raises cancel_raises : Bool) (oid : Nat) (q : Quote)
    (p : Position) (unit : Int)
    (h : submit_raises = true ∨ cancel_raises = true) :
    buy_path submit_raises cancel_raises oid q p unit = (q, p)
      ∧ sell_path submit_raises cancel_raises oid q p unit = (q, p) := by
  rcases h with h | h
  · subst h; exact ⟨rfl, rfl⟩
  · subst h
    cases submit_raises
    · exact ⟨rfl, rfl⟩
    · exact ⟨rfl, rfl⟩

/-- Witness for C2 (amended): a failing cancel call on concrete state. -/
theorem c2_error_leaves_state_unchanged_witness :
    (false = true ∨ true = true)
      ∧ buy_path false true 7 qC2 Position.init 100 = (qC2, Position.init)
      ∧ sell_path false true 7 qC2 Position.init 100 = (qC2, Position.init) :=
  ⟨Or.inr rfl,
    (c2_error_leaves_state_unchanged false true 7 qC2 Position.init 100
      (Or.inr rfl)).1,
    (c2_error_leaves_state_unchanged false true 7 qC2 Position.init 100
      (Or.inr rfl)).2⟩

/-- C3: the claim says the optimistic ledger update and the `traded` flip
happen before the cancel call.  In the source the cancel call comes second
in the `try` block, strictly before the pending increment, the registration
and the `traded` flip, on both paths; consequently, at the cancel call's
suspension point the just-submitted order id (7) is not yet registered in
the ledger — shown here by the state returned when the cancel call raises,
which is the state in force while it was pending. -/
theorem c3_cancel_call_precedes_registration :
    buy_path_steps.indexOf OrderStep.cancel_order
        < buy_path_steps.indexOf OrderStep.update_pending
      ∧ buy_path_steps.indexOf OrderStep.cancel_order
        < buy_path_steps.indexOf OrderStep.register_order
      ∧ buy_path_steps.indexOf OrderStep.cancel_order
        < buy_path_steps.indexOf OrderStep.set_traded
      ∧ sell_path_steps.indexOf OrderStep.cancel_order
        < sell_path_steps.indexOf OrderStep.register_order
      ∧ sell_path_steps.indexOf OrderStep.cancel_order
        < sell_path_steps.indexOf OrderStep.set_traded
      ∧ (buy_path false true 7 qC2 Position.init 100).2.orders_filled_amount 7
        = none := by
  refine ⟨?_, ?_, ?_, ?_, ?_, rfl⟩ <;> decide

/-- C6: for every registered order and every sequence of partial-fill
updates recorded for it, a terminal `canceled` or `rejected` order-update
deletes the order's entry from the filled-amount map and restores
`pendingBuyShares` and `pendingSellShares` to exactly their values from
before the order's pending increment was applied. -/
theorem c6_cancel_or_reject_restores_pending (p : Position) (oid : Nat)
    (side : Side) (unit : Int) (fills : List Int) (ev : Event)
    (hev : ev = Event.canceled ∨ ev = Event.rejected) :
    ∃ p2, process_trade_updates (some (p.register_pending_order oid side unit))
          (fills.map (fun f => ⟨Event.part_fill, oid, side, f⟩)
            ++ [⟨ev, oid, side, 0⟩]) unit
        = Except.ok (some p2)
      ∧ p2.orders_filled_amount oid = none
      ∧ p2.pending_buy_shares = p.pending_buy_shares
      ∧ p2.pending_sell_shares = p.pending_sell_shares := by
  have h0 : (p.register_pending_order oid side unit).orders_filled_amount oid
      = some 0 := by
    simp [Position.register_pending_order]
  have hside : pendingOf side (p.register_pending_order oid side unit)
      = pendingOf side p + unit := by
    cases side <;>
      simp [Position.register_pending_order, pendingOf,
        Position.update_pending_buy_shares, Position.update_pending_sell_shares]
  have hother : pendingOf side.other (p.register_pending_order oid side unit)
      = pendingOf side.other p := by
    cases side <;>
      simp [Position.register_pending_order, pendingOf, Side.other,
        Position.update_pending_buy_shares, Position.update_pending_sell_shares]
  obtain ⟨p1, a1, g1, g2, g3, g4⟩ :=
    partial_fills_run side oid unit fills (p.register_pending_order oid side unit) 0 h0
  obtain ⟨p2, r1, r2, r3, r4, _⟩ :=
    remove_pending_order_spec p1 oid side unit a1 g2
  have hev2 : on_trade_updates (some p1) ev oid side 0 unit
      = (p1.remove_pending_order oid side unit).map some := by
    rcases hev with h | h <;> subst h <;> rfl
  have hfin : pendingOf side p2 = pendingOf side p := by
    rw [r3, g3, hside]; ring
  have hfino : pendingOf side.other p2 = pendingOf side.other p := by
    rw [r4, g4, hother]
  refine ⟨p2, ?_, r2, ?_, ?_⟩
  · rw [process_trade_updates_append, g1]
    show process_trade_updates (some p1) [⟨ev, oid, side, 0⟩] unit
        = Except.ok (some p2)
    simp only [process_trade_updates, hev2, r1, Except.map]
  · cases side with
    | buy => exact hfin
    | sell => exact hfino
  · cases side with
    | buy => exact hfino
    | sell => exact hfin

/-- Witness for C6: register a buy order of 100 on an empty ledger, record
a partial fill at cumulative 40, then cancel. -/
theorem c6_cancel_or_reject_restores_pending_witness :
    (Event.canceled = Event.canceled ∨ Event.canceled = Event.rejected)
      ∧ ∃ p2, process_trade_updates
            (some (Position.init.register_pending_order 1 Side.buy 100))
            ([40].map (fun f => ⟨Event.part_fill, 1, Side.buy, f⟩)
              ++ [⟨Event.canceled, 1, Side.buy, 0⟩]) 100
          = Except.ok (some p2)
        ∧ p2.orders_filled_amount 1 = none
        ∧ p2.pending_buy_shares = Position.init.pending_buy_shares
        ∧ p2.pending_sell_shares = Position.init.pending_sell_shares :=
  ⟨Or.inl rfl,
    c6_cancel_or_reject_restores_pending Position.init 1 Side.buy 100 [40]
      Event.canceled (Or.inl rfl)⟩

/-- Rounding a one-cent difference of two-decimal prices to 2 digits gives
exactly one cent. -/
lemma round2_penny : pyRound ((10.02 : ℚ) - 10.01) 2 = 1/100 := by
  rw [pyRound_of_mul_eq _ _ 1 (by norm_num)]; norm_num

/-- Rounding the one-cent spread 10.01 - 10.00 to 3 digits gives one cent. -/
lemma round3_penny : pyRound ((10.01 : ℚ) - 10) 3 = 1/100 := by
  rw [pyRound_of_mul_eq _ _ 10 (by norm_num)]; norm_num

/-- Rounding the exact value one cent to 2 digits is the identity. -/
lemma round2_penny_exact : pyRound ((1 : ℚ)/100) 2 = 1/100 := by
  rw [pyRound_of_mul_eq _ _ 1 (by norm_num)]; norm_num

/-- Rounding the exact value one cent to 3 digits is the identity. -/
lemma round3_penny_exact : pyRound ((1 : ℚ)/100) 3 = 1/100 := by
  rw [pyRound_of_mul_eq _ _ 10 (by norm_num)]; norm_num

/-- Rounding the one-cent difference 10.04 - 10.03 to 2 digits. -/
lemma round2_penny_high : pyRound ((10.04 : ℚ) - 10.03) 2 = 1/100 := by
  rw [pyRound_of_mul_eq _ _ 1 (by norm_num)]; norm_num

/-- Rounding the two-cent spread 10.02 - 10.00 to 3 digits gives two cents. -/
lemma round3_two_cent : pyRound ((10.02 : ℚ) - 10) 3 = 1/50 := by
  rw [pyRound_of_mul_eq _ _ 20 (by norm_num)]; norm_num

/-- Rounding the exact value two cents to 3 digits is the identity. -/
lemma round3_two_cent_exact : pyRound ((1 : ℚ)/50) 3 = 1/50 := by
  rw [pyRound_of_mul_eq _ _ 20 (by norm_num)]; norm_num

/-- C1 counterexample: with unit 100 and maxShares 500, a trade print that
passes the window, already-traded, latency, size, price-equals-ask and
imbalance gates while `totalShares + pendingBuyShares = 400` does NOT lead
to a buy — the source requires `total + pending < maxShares - unit`
strictly, and 400 < 400 fails, so the decision is hold. -/
theorem c1_buy_at_threshold_counterexample :
    (0 ≤ cC1.dayofweek ∧ cC1.dayofweek ≤ 5 ∧
        sessionStartMin ≤ cC1.minutes ∧ cC1.minutes ≤ sessionEndMin)
      ∧ qC1.traded = false
      ∧ ¬(dC1.timestamp ≤ qC1.time + fiveMsNs)
      ∧ (100 : Int) ≤ dC1.size
      ∧ dC1.price = qC1.ask
      ∧ (qC1.ask_size : ℚ) * 1.8 < (qC1.bid_size : ℚ)
      ∧ pC1.total_shares + pC1.pending_buy_shares = 400
      ∧ on_trade_decision cC1 qC1 pC1 dC1 100 500 = TradeAction.hold := by
  refine ⟨by decide, rfl, by decide, by decide, rfl, by norm_num [qC1],
    by decide, ?_⟩
  norm_num [on_trade_decision, cC1, qC1, pC1, dC1, sessionStartMin,
    sessionEndMin, fiveMsNs]

/-- C1 (amended): with unit 100 and maxShares 500, for a trade print that
passes the window, already-traded, latency, size, price-equals-ask and
imbalance gates, the buy fires exactly when `totalShares + pendingBuyShares
< 400` (that is, at 399 and below); it is rejected at 400 and at 401,
because the source compares strictly against `maxShares - unit`. -/
theorem c1_buy_strictly_below_threshold (t : Clock) (q : Quote)
    (p : Position) (d : TradeData)
    (hw : 0 ≤ t.dayofweek ∧ t.dayofweek ≤ 5 ∧
      sessionStartMin ≤ t.minutes ∧ t.minutes ≤ sessionEndMin)
    (ht : q.traded = false)
    (hl : ¬(d.timestamp ≤ q.time + fiveMsNs))
    (hs : (100 : Int) ≤ d.size)
    (hp : d.price = q.ask)
    (hi : (q.ask_size : ℚ) * 1.8 < (q.bid_size : ℚ)) :
    on_trade_decision t q p d 100 500 = TradeAction.buy
      ↔ p.total_shares + p.pending_buy_shares < 400 := by
  have h400 : (500 : Int) - 100 = 400 := by norm_num
  by_cases hlt : p.total_shares + p.pending_buy_shares < 400
  · simp [on_trade_decision, hw.1, hw.2.1, hw.2.2.1, hw.2.2.2, ht, hl, hs,
      hp, hi, h400, hlt]
  · have hnb : on_trade_decision t q p d 100 500 ≠ TradeAction.buy := by
      simp only [on_trade_decision, h400]
      simp [hw.1, hw.2.1, hw.2.2.1, hw.2.2.2, ht, hl, hs, hlt]
      split <;> simp
    exact iff_of_false hnb hlt

/-- Witness for C1 (amended): with the same gates passing and
`totalShares + pendingBuyShares = 399`, the decision is buy. -/
theorem c1_buy_strictly_below_threshold_witness :
    (0 ≤ cC1.dayofweek ∧ cC1.dayofweek ≤ 5 ∧
        sessionStartMin ≤ cC1.minutes ∧ cC1.minutes ≤ sessionEndMin)
      ∧ qC1.traded = false
      ∧ ¬(dC1.timestamp ≤ qC1.time + fiveMsNs)
      ∧ (100 : Int) ≤ dC1.size
      ∧ dC1.price = qC1.ask
      ∧ (qC1.ask_size : ℚ) * 1.8 < (qC1.bid_size : ℚ)
      ∧ pC1w.total_shares + pC1w.pending_buy_shares = 399
      ∧ on_trade_decision cC1 qC1 pC1w dC1 100 500 = TradeAction.buy := by
  have hi : (qC1.ask_size : ℚ) * 1.8 < (qC1.bid_size : ℚ) := by norm_num [qC1]
  refine ⟨by decide, rfl, by decide, by decide, rfl, hi, by decide, ?_⟩
  exact (c1_buy_strictly_below_threshold cC1 qC1 pC1w dC1 (by decide) rfl
    (by decide) (by decide) rfl hi).mpr (by decide)

/-- C8: a level change is recognized iff the new bid differs from the
stored bid, the new ask differs from the stored ask, and the new spread
rounded to 2 digits is exactly one cent.  First conjunct: when the
condition holds, the quote adopts the new bid/ask/timestamp, snapshots the
old pair, and recomputes the spread.  Second: when it fails, only the
sizes are overwritten.  Then the claim's two examples: bid 10.00 to 10.01
with the ask unchanged at 10.02 is not a level change; bid 10.00 to 10.01
with ask 10.01 to 10.02 is. -/
theorem c8_level_change_iff :
    (∀ (q : Quote) (d : QuoteData),
        q.bid ≠ d.bidprice → q.ask ≠ d.askprice →
        pyRound (d.askprice - d.bidprice) 2 = 1/100 →
          (q.update d).bid = d.bidprice ∧ (q.update d).ask = d.askprice
            ∧ (q.update d).time = d.timestamp
            ∧ (q.update d).prev_bid = q.bid ∧ (q.update d).prev_ask = q.ask
            ∧ (q.update d).spread = pyRound (d.askprice - d.bidprice) 3)
      ∧ (∀ (q : Quote) (d : QuoteData),
          ¬(q.bid ≠ d.bidprice ∧ q.ask ≠ d.askprice ∧
              pyRound (d.askprice - d.bidprice) 2 = 1/100) →
            q.update d = { q with bid_size := d.bidsize, ask_size := d.asksize })
      ∧ Quote.update qC8a dC8a = { qC8a with bid_size := 5, ask_size := 6 }
      ∧ (Quote.update qC8b dC8b).bid = 10.01
      ∧ (Quote.update qC8b dC8b).ask = 10.02
      ∧ (Quote.update qC8b dC8b).time = 7 := by
  refine ⟨?_, ?_, ?_, ?_, ?_, ?_⟩
  · intro q d h1 h2 h3
    by_cases hs : pyRound (q.ask - q.bid) 3 = 1/100 <;>
      simp [Quote.update, Quote.reset, h1, h2, h3, hs, -one_div]
  · intro q d h
    unfold Quote.update
    rw [if_neg h]
  · unfold Quote.update
    rw [if_neg (fun h => h.2.1 rfl)]
    rfl
  all_goals
    norm_num [Quote.update, Quote.reset, qC8b, dC8b, Quote.init,
      round2_penny, round3_penny, round2_penny_exact, round3_penny_exact]

/-- Witness for C8's first conjunct at the concrete level change from
bid 10.00 / ask 10.01 to bid 10.01 / ask 10.02. -/
theorem c8_level_change_iff_witness :
    qC8b.bid ≠ dC8b.bidprice
      ∧ qC8b.ask ≠ dC8b.askprice
      ∧ pyRound (dC8b.askprice - dC8b.bidprice) 2 = 1/100
      ∧ ((Quote.update qC8b dC8b).bid = dC8b.bidprice
          ∧ (Quote.update qC8b dC8b).ask = dC8b.askprice
          ∧ (Quote.update qC8b dC8b).time = dC8b.timestamp
          ∧ (Quote.update qC8b dC8b).prev_bid = qC8b.bid
          ∧ (Quote.update qC8b dC8b).prev_ask = qC8b.ask
          ∧ (Quote.update qC8b dC8b).spread
            = pyRound (dC8b.askprice - dC8b.bidprice) 3) := by
  have h1 : qC8b.bid ≠ dC8b.bidprice := by norm_num [qC8b, dC8b, Quote.init]
  have h2 : qC8b.ask ≠ dC8b.askprice := by norm_num [qC8b, dC8b, Quote.init]
  have h3 : pyRound (dC8b.askprice - dC8b.bidprice) 2 = 1/100 := round2_penny
  exact ⟨h1, h2, h3, c8_level_change_iff.1 qC8b dC8b h1 h2 h3⟩

/-- C9: on a recognized level change the quote clears `traded` and bumps
`levelCount` exactly when the previous spread — previous ask minus previous
bid, rounded to 3 digits — was one cent; then the claim's example: a level
change arriving from a two-cent spread (bid 10.00 / ask 10.02 moving to
bid 10.03 / ask 10.04) leaves `traded` and `levelCount` unchanged. -/
theorem c9_traded_cleared_iff_prev_penny_spread :
    (∀ (q : Quote) (d : QuoteData),
        q.bid ≠ d.bidprice → q.ask ≠ d.askprice →
        pyRound (d.askprice - d.bidprice) 2 = 1/100 →
          ((q.update d).traded
              = if pyRound (q.ask - q.bid) 3 = 1/100 then false else q.traded)
            ∧ ((q.update d).level_ct
              = if pyRound (q.ask - q.bid) 3 = 1/100 then q.level_ct + 1
                else q.level_ct))
      ∧ (Quote.update qC9 dC9).traded = qC9.traded
      ∧ (Quote.update qC9 dC9).level_ct = qC9.level_ct
      ∧ (Quote.update qC9 dC9).bid = 10.03
      ∧ (Quote.update qC9 dC9).ask = 10.04 := by
  refine ⟨?_, ?_, ?_, ?_, ?_⟩
  · intro q d h1 h2 h3
    by_cases hs : pyRound (q.ask - q.bid) 3 = 1/100 <;>
      simp [Quote.update, Quote.reset, h1, h2, h3, hs, -one_div]
  all_goals
    norm_num [Quote.update, Quote.reset, qC9, dC9, Quote.init,
      round2_penny_high, round3_two_cent, round3_two_cent_exact,
      round2_penny_exact]

/-- Witness for C9's first conjunct at the concrete level change from the
two-cent spread state (previous spread 0.02, so no reset). -/
theorem c9_traded_cleared_iff_prev_penny_spread_witness :
    qC9.bid ≠ dC9.bidprice
      ∧ qC9.ask ≠ dC9.askprice
      ∧ pyRound (dC9.askprice - dC9.bidprice) 2 = 1/100
      ∧ ((Quote.update qC9 dC9).traded
            = if pyRound (qC9.ask - qC9.bid) 3 = 1/100 then false
              else qC9.traded)
      ∧ ((Quote.update qC9 dC9).level_ct
            = if pyRound (qC9.ask - qC9.bid) 3 = 1/100 then qC9.level_ct + 1
              else qC9.level_ct) := by
  have h1 : qC9.bid ≠ dC9.bidprice := by norm_num [qC9, dC9, Quote.init]
  have h2 : qC9.ask ≠ dC9.askprice := by norm_num [qC9, dC9, Quote.init]
  have h3 : pyRound (dC9.askprice - dC9.bidprice) 2 = 1/100 := round2_penny_high
  obtain ⟨g1, g2⟩ := c9_traded_cleared_iff_prev_penny_spread.1 qC9 dC9 h1 h2 h3
  exact ⟨h1, h2, h3, g1, g2⟩
